import Mathlib

/-!
Shallow embedding of `src/index.js` (B12-A10 online-learning backend).

The source is an Express application over MongoDB with handlers
`POST /register`, `POST /login`, `POST /google-login`, `GET /courses`,
`POST /courses`, `PUT /courses/:id`, `DELETE /courses/:id`.
Each handler performs at most one store read and one store write, so it is
embedded as a pure function from the request data and the store state to a
response together with the next state.  External collaborators (bcrypt and
the ImgBB image host) are parameters of the embedding.
-/

namespace B12A10

/-- JavaScript values as they occur in request bodies.  Only the shapes the
handlers distinguish are modelled: `undefined` (an absent field), `null`,
strings, (integer) numbers and booleans. -/
inductive JSValue where
  | vUndefined
  | vNull
  | vStr (s : String)
  | vNum (n : Int)
  | vBool (b : Bool)
deriving Repr, DecidableEq

/-- JavaScript truthiness, as used by `if (!title || ...)` in the
`POST /courses` handler: `undefined`, `null`, the empty string, the number
`0` and `false` are falsy; everything else modelled here is truthy. -/
def JSValue.truthy : JSValue → Bool
  | .vUndefined => false
  | .vNull => false
  | .vStr s => s.length != 0
  | .vNum n => n != 0
  | .vBool b => b

instance : BEq JSValue := ⟨fun a b => decide (a = b)⟩

instance : LawfulBEq JSValue where
  rfl := by intro a; simp [BEq.beq]
  eq_of_beq := by intro a b h; simpa [BEq.beq] using h

/-- A document of the `users` collection.  Locally-registered users carry a
bcrypt hash in `password` and no `fromGoogle` key; Google-provisioned users
carry `fromGoogle: true` and no `password` key.  Absent keys are `none`. -/
structure User where
  name : String
  email : String
  photoURL : String
  password : Option String
  fromGoogle : Option Bool
deriving Repr, DecidableEq

/-- A document of the `courses` collection.  `id` stands for the
store-assigned `_id`; the five caller-supplied fields are kept as the
JavaScript values of the request body; `image` is the URL returned by the
image host and `createdAt` the server timestamp. -/
structure Course where
  id : Nat
  title : JSValue
  description : JSValue
  category : JSValue
  price : JSValue
  instructor : JSValue
  image : String
  createdAt : Nat
deriving Repr, DecidableEq

/-- The document store: the `users` and `courses` collections (in insertion
order, which is the order `find` without a sort returns) plus the next
fresh course `_id`. -/
structure DB where
  users : List User
  courses : List Course
  nextId : Nat
deriving Repr, DecidableEq

/-- The bcrypt collaborator: `hash p` is `bcrypt.hash(p, 10)` and
`compare p h` is `bcrypt.compare(p, h)`. -/
structure BcryptModel where
  hash : String → String
  compare : String → String → Bool

/-- The contract of a correct password hasher: comparing a candidate
password against the hash of a stored password succeeds exactly when the
two coincide. -/
def GoodBcrypt (B : BcryptModel) : Prop :=
  ∀ p q : String, B.compare p (B.hash q) = (p == q)

/-- The payload of `jwt.sign({ email }, secret, { expiresIn: "7d" })`: the
single `email` claim and the fixed expiry. -/
structure Token where
  email : String
  expiresIn : String
deriving Repr, DecidableEq

/-- The JSON response of an authentication handler: a success carries the
HTTP status, message and signed token; a failure carries status and
message only. -/
inductive AuthResp where
  | success (status : Nat) (message : String) (token : Token)
  | failure (status : Nat) (message : String)
deriving Repr, DecidableEq

/-- The `email` claim of the token of a successful response, if any. -/
def AuthResp.tokenEmail : AuthResp → Option String
  | .success _ _ t => some t.email
  | .failure _ _ => none

/-- `/[A-Z]/.test(password)`: the string contains an ASCII uppercase
letter. -/
def hasUppercase (s : String) : Bool :=
  s.data.any fun c => 'A' ≤ c && c ≤ 'Z'

/-- `/[a-z]/.test(password)`: the string contains an ASCII lowercase
letter. -/
def hasLowercase (s : String) : Bool :=
  s.data.any fun c => 'a' ≤ c && c ≤ 'z'

/-- `usersCollection.findOne({ email })`: the first stored user with the
given email. -/
def findUserByEmail (email : String) (users : List User) : Option User :=
  users.find? fun u => u.email == email

/-- The `POST /register` handler.  Checks the password policy in source
order (uppercase, lowercase, length ≥ 6), short-circuiting on the first
failure; then rejects a duplicate email; otherwise hashes the password,
inserts the record and returns a 201 with a token for the email. -/
def register (B : BcryptModel) (name email photoURL password : String)
    (db : DB) : AuthResp × DB :=
  if !hasUppercase password then
    (.failure 400 "Password must include at least one uppercase letter.", db)
  else if !hasLowercase password then
    (.failure 400 "Password must include at least one lowercase letter.", db)
  else if password.length < 6 then
    (.failure 400 "Password must be at least 6 characters long.", db)
  else
    match findUserByEmail email db.users with
    | some _ => (.failure 400 "User already exists. Please log in.", db)
    | none =>
      let hashedPassword := B.hash password
      let newUser : User :=
        { name := name, email := email, photoURL := photoURL,
          password := some hashedPassword, fromGoogle := none }
      (.success 201 "Registration successful!" ⟨email, "7d"⟩,
       { db with users := db.users ++ [newUser] })

/-- The `POST /login` handler.  Looks the user up by email, compares the
supplied password against the stored bcrypt hash, and returns a fresh
token on success.  A record without a `password` key (a Google-provisioned
user) makes `bcrypt.compare` throw, which the catch-all maps to a 500. -/
def login (B : BcryptModel) (email password : String) (db : DB) :
    AuthResp × DB :=
  match findUserByEmail email db.users with
  | none => (.failure 400 "No user found with this email.", db)
  | some user =>
    match user.password with
    | none => (.failure 500 "Server error", db)
    | some stored =>
      if B.compare password stored then
        (.success 200 "Login successful!" ⟨email, "7d"⟩, db)
      else
        (.failure 400 "Incorrect password.", db)

/-- The `POST /google-login` handler.  Upsert-by-email: inserts a record
marked `fromGoogle: true` (and without a `password` key) when the email is
new, otherwise touches nothing; always answers 200 with a fresh token. -/
def googleLogin (name email photoURL : String) (db : DB) : AuthResp × DB :=
  match findUserByEmail email db.users with
  | some _ => (.success 200 "Google login successful!" ⟨email, "7d"⟩, db)
  | none =>
    let user : User :=
      { name := name, email := email, photoURL := photoURL,
        password := none, fromGoogle := some true }
    (.success 200 "Google login successful!" ⟨email, "7d"⟩,
     { db with users := db.users ++ [user] })

/-- The JSON response of a course handler: `created` is the 201 of
`POST /courses` (it echoes the inserted record), `ok` a 200 with a message
only, `badRequest` the 400 of a failed validation. -/
inductive CourseResp where
  | created (message : String) (course : Course)
  | ok (message : String)
  | badRequest (message : String)
deriving Repr, DecidableEq

/-- The body of `POST /courses`: the six fields the handler destructures,
each an arbitrary JavaScript value (`.vUndefined` when absent). -/
structure CourseReq where
  title : JSValue
  description : JSValue
  category : JSValue
  price : JSValue
  instructor : JSValue
  imageBase64 : JSValue
deriving Repr, DecidableEq

/-- The body of `PUT /courses/:id`, fed to `$set`: any subset of the course
fields; `none` means the key is absent from the body and stays untouched. -/
structure CourseUpdate where
  title : Option JSValue
  description : Option JSValue
  category : Option JSValue
  price : Option JSValue
  instructor : Option JSValue
  image : Option String
  createdAt : Option Nat
deriving Repr, DecidableEq

/-- `$set` semantics on one document: every field present in the body
replaces the stored field and every absent field is kept. -/
def applySet (p : CourseUpdate) (c : Course) : Course :=
  { id := c.id
    title := p.title.getD c.title
    description := p.description.getD c.description
    category := p.category.getD c.category
    price := p.price.getD c.price
    instructor := p.instructor.getD c.instructor
    image := p.image.getD c.image
    createdAt := p.createdAt.getD c.createdAt }

/-- `updateOne({ _id }, { $set })`: applies the `$set` to the first
document with the given id, if any; matching nothing changes nothing. -/
def updateFirst (id : Nat) (p : CourseUpdate) : List Course → List Course
  | [] => []
  | c :: cs => if c.id == id then applySet p c :: cs else c :: updateFirst id p cs

/-- `deleteOne({ _id })`: removes the first document with the given id, if
any; matching nothing changes nothing. -/
def deleteFirst (id : Nat) : List Course → List Course
  | [] => []
  | c :: cs => if c.id == id then cs else c :: deleteFirst id cs

/-- The `GET /courses` handler.  `req.query.category` is `none` when the
query parameter is absent and `some s` when supplied; the source builds
the Mongo query with `category ? { category } : {}`, so a supplied but
empty (falsy) string also selects the unfiltered query.  A Mongo equality
filter compares the stored field against the (string) query value. -/
def listCourses (category : Option String) (courses : List Course) :
    List Course :=
  match category with
  | some c =>
    if c.length != 0 then
      courses.filter fun course => course.category == JSValue.vStr c
    else courses
  | none => courses

/-- The `POST /courses` handler.  Rejects the request when any of the six
fields is falsy (`!title || ...`); otherwise uploads the image to the
image host (`host`), inserts the record with the returned URL and the
server timestamp `now`, and echoes it with a 201.  The third component of
the result lists the payloads sent to the image host during the call. -/
def createCourse (host : JSValue → String) (now : Nat) (r : CourseReq)
    (db : DB) : CourseResp × DB × List JSValue :=
  if !r.title.truthy || !r.description.truthy || !r.category.truthy ||
      !r.price.truthy || !r.instructor.truthy || !r.imageBase64.truthy then
    (.badRequest "All fields are required!", db, [])
  else
    let imageUrl := host r.imageBase64
    let newCourse : Course :=
      { id := db.nextId, title := r.title, description := r.description,
        category := r.category, price := r.price, instructor := r.instructor,
        image := imageUrl, createdAt := now }
    (.created "Course added successfully!" newCourse,
     { db with courses := db.courses ++ [newCourse], nextId := db.nextId + 1 },
     [r.imageBase64])

/-- The `PUT /courses/:id` handler.  No existence check: it runs the
`updateOne` and answers 200 regardless of whether anything matched. -/
def updateCourse (id : Nat) (p : CourseUpdate) (db : DB) : CourseResp × DB :=
  (.ok "Course updated successfully!",
   { db with courses := updateFirst id p db.courses })

/-- The `DELETE /courses/:id` handler.  Same existence semantics: runs the
`deleteOne` and answers 200 regardless. -/
def deleteCourse (id : Nat) (db : DB) : CourseResp × DB :=
  (.ok "Course deleted successfully!",
   { db with courses := deleteFirst id db.courses })

/-- One inbound request, covering every state-touching handler of the
system. -/
inductive Op where
  | register (name email photoURL password : String)
  | login (email password : String)
  | googleLogin (name email photoURL : String)
  | listCourses (category : Option String)
  | createCourse (r : CourseReq)
  | updateCourse (id : Nat) (p : CourseUpdate)
  | deleteCourse (id : Nat)

/-- The state transition of one sequentially-executed request (responses
discarded), with the collaborators `B` (bcrypt), `host` (image host) and
`now` (server clock) fixed. -/
def step (B : BcryptModel) (host : JSValue → String) (now : Nat) :
    Op → DB → DB
  | .register name email photoURL password, db =>
    (register B name email photoURL password db).2
  | .login email password, db => (login B email password db).2
  | .googleLogin name email photoURL, db =>
    (googleLogin name email photoURL db).2
  | .listCourses _, db => db
  | .createCourse r, db => (createCourse host now r db).2.1
  | .updateCourse id p, db => (updateCourse id p db).2
  | .deleteCourse id, db => (deleteCourse id db).2

/-- At most one user record per email: the stored emails are pairwise
distinct. -/
def UsersUnique (users : List User) : Prop :=
  users.Pairwise fun a b => a.email ≠ b.email

/-- The empty store, as after a fresh deployment. -/
def emptyDB : DB := { users := [], courses := [], nextId := 0 }

/-- A concrete hasher instantiating `BcryptModel` in witnesses: it stores
the password itself and compares by equality. -/
def idBcrypt : BcryptModel := { hash := fun p => p, compare := fun p h => p == h }

theorem idBcrypt_good : GoodBcrypt idBcrypt := fun _ _ => rfl

/-- A concrete course used in witnesses and counterexamples. -/
def mathCourse : Course :=
  { id := 0, title := .vStr "t", description := .vStr "d",
    category := .vStr "math", price := .vNum 5, instructor := .vStr "i",
    image := "url", createdAt := 0 }

/-- Claim C1: a password without an uppercase letter always draws the
uppercase-policy error with the store untouched, whatever else is wrong
with it; and the three policy checks run in the order uppercase,
lowercase, length, short-circuiting on the first failure. -/
theorem register_policy_order (B : BcryptModel)
    (name email photoURL password : String) (db : DB) :
    (hasUppercase password = false →
      register B name email photoURL password db =
        (.failure 400 "Password must include at least one uppercase letter.", db)) ∧
    (hasUppercase password = true → hasLowercase password = false →
      register B name email photoURL password db =
        (.failure 400 "Password must include at least one lowercase letter.", db)) ∧
    (hasUppercase password = true → hasLowercase password = true →
      password.length < 6 →
      register B name email photoURL password db =
        (.failure 400 "Password must be at least 6 characters long.", db)) := by
  refine ⟨fun h1 => ?_, fun h1 h2 => ?_, fun h1 h2 h3 => ?_⟩ <;>
    simp [register, h1, *]

theorem register_policy_order_witness :
    register idBcrypt "n" "e@x" "ph" "abc" emptyDB =
      (.failure 400 "Password must include at least one uppercase letter.",
       emptyDB) :=
  (register_policy_order idBcrypt "n" "e@x" "ph" "abc" emptyDB).1 (by decide)

/-- Claim C7: a `POST /courses` body missing any of the six fields draws
the validation error, calls the image host zero times and leaves the
store unchanged. -/
theorem createCourse_missing_field (host : JSValue → String) (now : Nat)
    (r : CourseReq) (db : DB)
    (h : r.title = .vUndefined ∨ r.description = .vUndefined ∨
         r.category = .vUndefined ∨ r.price = .vUndefined ∨
         r.instructor = .vUndefined ∨ r.imageBase64 = .vUndefined) :
    createCourse host now r db = (.badRequest "All fields are required!", db, []) := by
  rcases h with h | h | h | h | h | h <;>
    simp [createCourse, h, JSValue.truthy]

theorem createCourse_missing_field_witness :
    createCourse (fun _ => "url") 0
      { title := .vStr "T", description := .vStr "D", category := .vStr "C",
        price := .vUndefined, instructor := .vStr "I",
        imageBase64 := .vStr "img" } emptyDB =
      (.badRequest "All fields are required!", emptyDB, []) :=
  createCourse_missing_field (fun _ => "url") 0 _ emptyDB
    (Or.inr (Or.inr (Or.inr (Or.inl rfl))))

/-- A `POST /courses` body in which every field is supplied but `price` is
the number `0`. -/
def zeroPriceReq : CourseReq :=
  { title := .vStr "T", description := .vStr "D", category := .vStr "C",
    price := .vNum 0, instructor := .vStr "I", imageBase64 := .vStr "img" }

/-- Claim C10: a body with all six fields present but `price = 0` is still
rejected as missing fields, because the handler tests presence by
truthiness (`!price`), with no image-host call and no store write. -/
theorem createCourse_rejects_zero_price (host : JSValue → String)
    (now : Nat) (db : DB) :
    zeroPriceReq.price = .vNum 0 ∧
    (zeroPriceReq.title ≠ .vUndefined ∧ zeroPriceReq.description ≠ .vUndefined ∧
     zeroPriceReq.category ≠ .vUndefined ∧ zeroPriceReq.price ≠ .vUndefined ∧
     zeroPriceReq.instructor ≠ .vUndefined ∧ zeroPriceReq.imageBase64 ≠ .vUndefined) ∧
    createCourse host now zeroPriceReq db =
      (.badRequest "All fields are required!", db, []) := by
  refine ⟨rfl, by decide, ?_⟩
  simp [createCourse, zeroPriceReq, JSValue.truthy]

/-- Claim C6 counterexample: with the store holding one `"math"` course, a
supplied-but-empty category filter returns every record instead of the
records whose category equals the filter value `""`. -/
theorem listCourses_empty_filter_counterexample :
    listCourses (some "") [mathCourse] ≠
      ([mathCourse].filter fun course => course.category == JSValue.vStr "") := by
  decide

/-- Claim C6 (amended): a supplied category filter of nonzero length
returns exactly the records whose `category` equals it; no filter, or a
supplied empty-string filter (falsy, treated as unsupplied by
`category ? { category } : {}`), returns all records. -/
theorem listCourses_filter (category : String) (courses : List Course) :
    (category.length ≠ 0 →
      listCourses (some category) courses =
        courses.filter fun course => course.category == JSValue.vStr category) ∧
    listCourses (some "") courses = courses ∧
    listCourses none courses = courses := by
  refine ⟨fun h => ?_, ?_, rfl⟩
  · simp [listCourses, bne_iff_ne, h]
  · simp [listCourses]

theorem listCourses_filter_witness :
    listCourses (some "math") [mathCourse] =
      ([mathCourse].filter fun course => course.category == JSValue.vStr "math") :=
  (listCourses_filter "math" [mathCourse]).1 (by decide)

/-- Looking a fresh email up after inserting its record finds exactly that
record (`findOne` scans in insertion order). -/
theorem findUserByEmail_append_self (email : String) (users : List User)
    (u : User) (h : findUserByEmail email users = none) (hu : u.email = email) :
    findUserByEmail email (users ++ [u]) = some u := by
  unfold findUserByEmail at h ⊢
  rw [List.find?_append, h]
  simp [List.find?, hu]

/-- Claim C3: registering the same email twice (both passwords passing
policy) succeeds with a 201 the first time and fails with the
duplicate-user 400 the second time, the second call inserting nothing. -/
theorem register_duplicate (B : BcryptModel)
    (name name2 email photoURL photoURL2 password password2 : String) (db : DB)
    (hU : hasUppercase password = true) (hL : hasLowercase password = true)
    (hlen : ¬ password.length < 6)
    (hU2 : hasUppercase password2 = true) (hL2 : hasLowercase password2 = true)
    (hlen2 : ¬ password2.length < 6)
    (hnew : findUserByEmail email db.users = none) :
    (register B name email photoURL password db).1 =
      .success 201 "Registration successful!" ⟨email, "7d"⟩ ∧
    register B name2 email photoURL2 password2
        (register B name email photoURL password db).2 =
      (.failure 400 "User already exists. Please log in.",
       (register B name email photoURL password db).2) := by
  have h1 : register B name email photoURL password db =
      (.success 201 "Registration successful!" ⟨email, "7d"⟩,
       { db with users := db.users ++
           [{ name := name, email := email, photoURL := photoURL,
              password := some (B.hash password), fromGoogle := none }] }) := by
    simp [register, hU, hL, hlen, hnew]
  have hfind := findUserByEmail_append_self email db.users
    { name := name, email := email, photoURL := photoURL,
      password := some (B.hash password), fromGoogle := none } hnew rfl
  refine ⟨by rw [h1], ?_⟩
  rw [h1]
  simp [register, hU2, hL2, hlen2, hfind]

theorem register_duplicate_witness :
    (register idBcrypt "n" "e@x" "ph" "Abcdef" emptyDB).1 =
      .success 201 "Registration successful!" ⟨"e@x", "7d"⟩ ∧
    register idBcrypt "n2" "e@x" "ph2" "Ghijkl"
        (register idBcrypt "n" "e@x" "ph" "Abcdef" emptyDB).2 =
      (.failure 400 "User already exists. Please log in.",
       (register idBcrypt "n" "e@x" "ph" "Abcdef" emptyDB).2) :=
  register_duplicate idBcrypt "n" "n2" "e@x" "ph" "ph2" "Abcdef" "Ghijkl"
    emptyDB (by decide) (by decide) (by decide) (by decide) (by decide)
    (by decide) rfl

/-- Claim C2: after a valid, unique-email registration, logging in with
the same email and the original plaintext password succeeds with a token,
and logging in with any other password fails with the incorrect-password
response, the store untouched either way.  `GoodBcrypt` is the contract of
the bcrypt collaborator: comparing against a hash succeeds exactly for
the hashed password. -/
theorem register_then_login (B : BcryptModel)
    (name email photoURL password other : String) (db : DB)
    (hB : GoodBcrypt B)
    (hU : hasUppercase password = true) (hL : hasLowercase password = true)
    (hlen : ¬ password.length < 6)
    (hnew : findUserByEmail email db.users = none) :
    login B email password (register B name email photoURL password db).2 =
      (.success 200 "Login successful!" ⟨email, "7d"⟩,
       (register B name email photoURL password db).2) ∧
    (other ≠ password →
      login B email other (register B name email photoURL password db).2 =
        (.failure 400 "Incorrect password.",
         (register B name email photoURL password db).2)) := by
  have hdb : (register B name email photoURL password db).2 =
      { db with users := db.users ++
          [{ name := name, email := email, photoURL := photoURL,
             password := some (B.hash password), fromGoogle := none }] } := by
    simp [register, hU, hL, hlen, hnew]
  have hfind := findUserByEmail_append_self email db.users
    { name := name, email := email, photoURL := photoURL,
      password := some (B.hash password), fromGoogle := none } hnew rfl
  constructor
  · rw [hdb]
    simp [login, hfind, hB password password]
  · intro hne
    rw [hdb]
    simp [login, hfind, hB other password, hne]

theorem register_then_login_witness :
    login idBcrypt "e@x" "Abcdef"
        (register idBcrypt "n" "e@x" "ph" "Abcdef" emptyDB).2 =
      (.success 200 "Login successful!" ⟨"e@x", "7d"⟩,
       (register idBcrypt "n" "e@x" "ph" "Abcdef" emptyDB).2) ∧
    login idBcrypt "e@x" "Xbcdef"
        (register idBcrypt "n" "e@x" "ph" "Abcdef" emptyDB).2 =
      (.failure 400 "Incorrect password.",
       (register idBcrypt "n" "e@x" "ph" "Abcdef" emptyDB).2) :=
  ⟨(register_then_login idBcrypt "n" "e@x" "ph" "Abcdef" "Xbcdef" emptyDB
      idBcrypt_good (by decide) (by decide) (by decide) rfl).1,
   (register_then_login idBcrypt "n" "e@x" "ph" "Abcdef" "Xbcdef" emptyDB
      idBcrypt_good (by decide) (by decide) (by decide) rfl).2 (by decide)⟩

/-- Claim C4: `googleLogin` on a fresh email appends exactly one record,
marked `fromGoogle = true` and without a password; the second call leaves
the store exactly as it was; both calls answer 200 with a token whose
email claim is the input email. -/
theorem googleLogin_idempotent (name email photoURL : String) (db : DB)
    (hnew : findUserByEmail email db.users = none) :
    googleLogin name email photoURL db =
      (.success 200 "Google login successful!" ⟨email, "7d"⟩,
       { db with users := db.users ++
           [{ name := name, email := email, photoURL := photoURL,
              password := none, fromGoogle := some true }] }) ∧
    googleLogin name email photoURL (googleLogin name email photoURL db).2 =
      (.success 200 "Google login successful!" ⟨email, "7d"⟩,
       (googleLogin name email photoURL db).2) := by
  have h1 : googleLogin name email photoURL db =
      (.success 200 "Google login successful!" ⟨email, "7d"⟩,
       { db with users := db.users ++
           [{ name := name, email := email, photoURL := photoURL,
              password := none, fromGoogle := some true }] }) := by
    simp [googleLogin, hnew]
  have hfind := findUserByEmail_append_self email db.users
    { name := name, email := email, photoURL := photoURL,
      password := none, fromGoogle := some true } hnew rfl
  refine ⟨h1, ?_⟩
  rw [h1]
  simp [googleLogin, hfind]

theorem googleLogin_idempotent_witness :
    googleLogin "n" "g@x" "ph" emptyDB =
      (.success 200 "Google login successful!" ⟨"g@x", "7d"⟩,
       { emptyDB with users :=
           [{ name := "n", email := "g@x", photoURL := "ph",
              password := none, fromGoogle := some true }] }) ∧
    googleLogin "n" "g@x" "ph" (googleLogin "n" "g@x" "ph" emptyDB).2 =
      (.success 200 "Google login successful!" ⟨"g@x", "7d"⟩,
       (googleLogin "n" "g@x" "ph" emptyDB).2) :=
  googleLogin_idempotent "n" "g@x" "ph" emptyDB rfl

/-- `register` either leaves the users collection alone or, when the email
was not stored, appends exactly the one new record. -/
theorem register_users_shape (B : BcryptModel)
    (name email photoURL password : String) (db : DB) :
    (register B name email photoURL password db).2 = db ∨
    (findUserByEmail email db.users = none ∧
     (register B name email photoURL password db).2 =
       { db with users := db.users ++
           [{ name := name, email := email, photoURL := photoURL,
              password := some (B.hash password), fromGoogle := none }] }) := by
  unfold register
  split
  · exact Or.inl rfl
  split
  · exact Or.inl rfl
  split
  · exact Or.inl rfl
  split
  · exact Or.inl rfl
  · rename_i h
    exact Or.inr ⟨h, rfl⟩

/-- `googleLogin` either leaves the users collection alone or, when the
email was not stored, appends exactly the one provisioned record. -/
theorem googleLogin_users_shape (name email photoURL : String) (db : DB) :
    (googleLogin name email photoURL db).2 = db ∨
    (findUserByEmail email db.users = none ∧
     (googleLogin name email photoURL db).2 =
       { db with users := db.users ++
           [{ name := name, email := email, photoURL := photoURL,
              password := none, fromGoogle := some true }] }) := by
  unfold googleLogin
  split
  · exact Or.inl rfl
  · rename_i h
    exact Or.inr ⟨h, rfl⟩

/-- `login` never writes to the store. -/
theorem login_state (B : BcryptModel) (email password : String) (db : DB) :
    (login B email password db).2 = db := by
  unfold login
  split
  · rfl
  split
  · rfl
  split <;> rfl

/-- `createCourse` never touches the users collection. -/
theorem createCourse_users (host : JSValue → String) (now : Nat)
    (r : CourseReq) (db : DB) :
    (createCourse host now r db).2.1.users = db.users := by
  unfold createCourse
  split <;> rfl

/-- Appending a record whose email is not yet stored preserves email
uniqueness. -/
theorem usersUnique_append (users : List User) (u : User)
    (h : UsersUnique users) (hnone : findUserByEmail u.email users = none) :
    UsersUnique (users ++ [u]) := by
  rw [UsersUnique, List.pairwise_append]
  refine ⟨h, List.pairwise_singleton _ _, ?_⟩
  intro a ha b hb
  have hb' : b = u := by simpa using hb
  subst hb'
  unfold findUserByEmail at hnone
  have := List.find?_eq_none.mp hnone a ha
  simpa using this

/-- Claim C5: from any state with at most one user record per email, every
sequentially executed operation preserves that invariant, and no
operation ever updates or deletes a user record — the users collection
only ever grows by appending. -/
theorem users_invariant (B : BcryptModel) (host : JSValue → String)
    (now : Nat) (op : Op) (db : DB) (h : UsersUnique db.users) :
    UsersUnique (step B host now op db).users ∧
    ∃ suffix, (step B host now op db).users = db.users ++ suffix := by
  cases op with
  | register name email photoURL password =>
    rcases register_users_shape B name email photoURL password db with
      heq | ⟨hnone, heq⟩
    · rw [step, heq]
      exact ⟨h, [], by simp⟩
    · rw [step, heq]
      exact ⟨usersUnique_append db.users _ h hnone, _, rfl⟩
  | login email password =>
    rw [step, login_state]
    exact ⟨h, [], by simp⟩
  | googleLogin name email photoURL =>
    rcases googleLogin_users_shape name email photoURL db with
      heq | ⟨hnone, heq⟩
    · rw [step, heq]
      exact ⟨h, [], by simp⟩
    · rw [step, heq]
      exact ⟨usersUnique_append db.users _ h hnone, _, rfl⟩
  | listCourses category =>
    exact ⟨h, [], by simp [step]⟩
  | createCourse r =>
    rw [step, createCourse_users]
    exact ⟨h, [], by simp⟩
  | updateCourse id p =>
    exact ⟨h, [], by simp [step, updateCourse]⟩
  | deleteCourse id =>
    exact ⟨h, [], by simp [step, deleteCourse]⟩

theorem users_invariant_witness :
    UsersUnique (step idBcrypt (fun _ => "url") 0
        (.googleLogin "n" "w@x" "ph") emptyDB).users ∧
    ∃ suffix, (step idBcrypt (fun _ => "url") 0
        (.googleLogin "n" "w@x" "ph") emptyDB).users =
      emptyDB.users ++ suffix :=
  users_invariant idBcrypt (fun _ => "url") 0
    (.googleLogin "n" "w@x" "ph") emptyDB List.Pairwise.nil

/-- `updateOne` matching no stored id changes nothing. -/
theorem updateFirst_not_found (id : Nat) (p : CourseUpdate)
    (l : List Course) (h : ∀ c ∈ l, c.id ≠ id) : updateFirst id p l = l := by
  induction l with
  | nil => rfl
  | cons c cs ih =>
    have hc : (c.id == id) = false := by simpa using h c (by simp)
    simp only [updateFirst, hc, Bool.false_eq_true, if_false, List.cons.injEq,
      true_and]
    exact ih fun c' hc' => h c' (by simp [hc'])

/-- `updateOne` applies the `$set` to the first record carrying the
targeted id and to nothing else. -/
theorem updateFirst_append (id : Nat) (p : CourseUpdate)
    (pre : List Course) (c : Course) (post : List Course)
    (hpre : ∀ c' ∈ pre, c'.id ≠ id) (hc : c.id = id) :
    updateFirst id p (pre ++ c :: post) = pre ++ applySet p c :: post := by
  induction pre with
  | nil => simp [updateFirst, hc]
  | cons a l ih =>
    have ha : (a.id == id) = false := by simpa using hpre a (by simp)
    simp only [List.cons_append, updateFirst, ha, Bool.false_eq_true,
      if_false, List.cons.injEq, true_and]
    exact ih fun c' h' => hpre c' (by simp [h'])

/-- Claim C8: `updateCourse` replaces exactly the fields present in the
body on the record with the targeted id, keeping its other fields and all
other records; with no record carrying the id it still answers success
and leaves the collection unchanged. -/
theorem updateCourse_frame (id : Nat) (p : CourseUpdate) (db : DB) :
    ((∀ c ∈ db.courses, c.id ≠ id) →
      updateCourse id p db = (.ok "Course updated successfully!", db)) ∧
    (∀ pre c post, db.courses = pre ++ c :: post → c.id = id →
      (∀ c' ∈ pre, c'.id ≠ id) →
      updateCourse id p db =
        (.ok "Course updated successfully!",
         { db with courses := pre ++
             { id := c.id,
               title := p.title.getD c.title,
               description := p.description.getD c.description,
               category := p.category.getD c.category,
               price := p.price.getD c.price,
               instructor := p.instructor.getD c.instructor,
               image := p.image.getD c.image,
               createdAt := p.createdAt.getD c.createdAt } :: post })) := by
  constructor
  · intro h
    unfold updateCourse
    rw [updateFirst_not_found id p db.courses h]
  · intro pre c post hdec hc hpre
    unfold updateCourse
    rw [hdec, updateFirst_append id p pre c post hpre hc]
    rfl

/-- A `PUT /courses/:id` body setting only the title. -/
def titlePatch : CourseUpdate :=
  { title := some (.vStr "t2"), description := none, category := none,
    price := none, instructor := none, image := none, createdAt := none }

/-- A store holding exactly the one concrete course. -/
def oneCourseDB : DB := { users := [], courses := [mathCourse], nextId := 1 }

theorem updateCourse_frame_witness :
    updateCourse 5 titlePatch oneCourseDB =
      (.ok "Course updated successfully!", oneCourseDB) ∧
    updateCourse 0 titlePatch oneCourseDB =
      (.ok "Course updated successfully!",
       { oneCourseDB with courses :=
           [{ id := 0, title := .vStr "t2", description := .vStr "d",
              category := .vStr "math", price := .vNum 5,
              instructor := .vStr "i", image := "url", createdAt := 0 }] }) :=
  ⟨(updateCourse_frame 5 titlePatch oneCourseDB).1 (by decide),
   (updateCourse_frame 0 titlePatch oneCourseDB).2 [] mathCourse [] rfl rfl
     (by decide)⟩

/-- `deleteOne` matching no stored id changes nothing. -/
theorem deleteFirst_not_found (id : Nat) (l : List Course)
    (h : ∀ c ∈ l, c.id ≠ id) : deleteFirst id l = l := by
  induction l with
  | nil => rfl
  | cons c cs ih =>
    have hc : (c.id == id) = false := by simpa using h c (by simp)
    simp only [deleteFirst, hc, Bool.false_eq_true, if_false,
      List.cons.injEq, true_and]
    exact ih fun c' hc' => h c' (by simp [hc'])

/-- `deleteOne` removes the first record carrying the targeted id and
nothing else. -/
theorem deleteFirst_append (id : Nat) (pre : List Course) (c : Course)
    (post : List Course) (hpre : ∀ c' ∈ pre, c'.id ≠ id) (hc : c.id = id) :
    deleteFirst id (pre ++ c :: post) = pre ++ post := by
  induction pre with
  | nil => simp [deleteFirst, hc]
  | cons a l ih =>
    have ha : (a.id == id) = false := by simpa using hpre a (by simp)
    simp only [List.cons_append, deleteFirst, ha, Bool.false_eq_true,
      if_false, List.cons.injEq, true_and]
    exact ih fun c' h' => hpre c' (by simp [h'])

/-- Claim C9: `deleteCourse` removes exactly the record carrying the
targeted id and keeps every other record; repeating the call on the
resulting state changes nothing and still answers success, as does
deleting an id that was never stored. -/
theorem deleteCourse_frame (id : Nat) (db : DB) :
    (∀ pre c post, db.courses = pre ++ c :: post → c.id = id →
      (∀ c' ∈ pre, c'.id ≠ id) → (∀ c' ∈ post, c'.id ≠ id) →
      deleteCourse id db =
        (.ok "Course deleted successfully!",
         { db with courses := pre ++ post }) ∧
      deleteCourse id { db with courses := pre ++ post } =
        (.ok "Course deleted successfully!",
         { db with courses := pre ++ post })) ∧
    ((∀ c ∈ db.courses, c.id ≠ id) →
      deleteCourse id db = (.ok "Course deleted successfully!", db)) := by
  constructor
  · intro pre c post hdec hc hpre hpost
    have hrest : ∀ c' ∈ pre ++ post, c'.id ≠ id := by
      intro c' hmem
      rcases List.mem_append.mp hmem with hm | hm
      · exact hpre c' hm
      · exact hpost c' hm
    constructor
    · unfold deleteCourse
      rw [hdec, deleteFirst_append id pre c post hpre hc]
    · unfold deleteCourse
      rw [show ({ db with courses := pre ++ post } : DB).courses =
            pre ++ post from rfl,
        deleteFirst_not_found id (pre ++ post) hrest]
  · intro h
    unfold deleteCourse
    rw [deleteFirst_not_found id db.courses h]

theorem deleteCourse_frame_witness :
    (deleteCourse 0 oneCourseDB =
      (.ok "Course deleted successfully!",
       { oneCourseDB with courses := [] }) ∧
     deleteCourse 0 { oneCourseDB with courses := [] } =
      (.ok "Course deleted successfully!",
       { oneCourseDB with courses := [] })) ∧
    deleteCourse 7 oneCourseDB =
      (.ok "Course deleted successfully!", oneCourseDB) :=
  ⟨(deleteCourse_frame 0 oneCourseDB).1 [] mathCourse [] rfl rfl
     (by decide) (by decide),
   (deleteCourse_frame 7 oneCourseDB).2 (by decide)⟩

end B12A10
